import Mathlib

/-!
Verification of the invoice-processing agent.

The pipeline (src/agent.py) is embedded shallowly: the LangGraph state dict
becomes the structure `InvoiceState`, each stage node becomes a Lean function,
and the two conditional-edge routers become `routing_match` / `routing_hitl`.
External collaborators (the mock HTTP servers of src/servers.py, the LLM tool
picker and discrepancy analyzer) are modelled by an oracle structure `Env`:
a call that raises (caught by `call_post` / `call_get`, which return the empty
dict) or a response missing the expected key is modelled as `none`, and each
node applies the same `.get(key, default)` defaulting as the Python code.
Machine floats are modelled as exact rationals; Python's `round(x, 2)`
(round-half-to-even) is `round2`.

The match-score algorithm itself is in src/servers.py (`compute_match_score`)
and is embedded directly.
-/

namespace InvoiceAgent

/-- Parsed invoice fields, as returned by the `parse_invoice` collaborator
(src/servers.py always returns all three keys; a degraded call yields the
empty dict, modelled as `none` at the use site). -/
structure Extracted where
  amount : ℚ
  vendor : String
  date : String
  deriving DecidableEq

/-- Vendor enrichment profile. Each key may be absent from the response dict,
hence `Option` fields; the degraded empty dict is `⟨none, none⟩`. -/
structure Profile where
  credit_score : Option Int
  risk_level : Option String
  deriving DecidableEq

/-- A found purchase order, as returned by `fetch_po` with `found: true`. -/
structure PoRec where
  po_number : String
  amount : ℚ
  deriving DecidableEq

/-- One accounting entry from `build_accounting_entries`. -/
structure LedgerEntry where
  typ : String
  account : String
  amount : ℚ
  vendor : Option String
  deriving DecidableEq

/-- The payload injected on resume: `{"action": ..., "note": ...}`
(src/api.py `submit_decision`). -/
structure DecisionPayload where
  action : String
  note : String
  deriving DecidableEq

/-- The LangGraph state dict `InvoiceState` of src/agent.py. -/
structure InvoiceState where
  invoice_file : String
  invoice_id : String
  ocr_text : String
  extracted_data : Option Extracted
  vendor_profile : Profile
  po_data : Option PoRec
  match_score : ℚ
  accounting_entries : List LedgerEntry
  approval_status : String
  erp_txn_id : String
  logs : List String
  status : String
  review_url : String
  ai_analysis : Option String
  flags : List String
  deriving DecidableEq

/-- Oracle for every external collaborator call a node makes. `none` models a
call that failed (caught by `call_post`/`call_get`, yielding `{}`) or a
response missing the expected key. `decision` is the resume payload delivered
by `interrupt` (absent on the initial pass, so DECIDE suspends). -/
structure Env where
  pickTool : String → String
  ocrExtract : String → String → Option String
  parseInvoice : String → Option Extracted
  enrichVendor : String → Option Profile
  fetchPo : String → Option PoRec
  computeScore : ℚ → ℚ → Option ℚ
  buildEntries : ℚ → String → Option (List LedgerEntry)
  postErp : String → Option String
  analyze : ℚ → ℚ → String
  decision : Option DecisionPayload

/-- Errors a stage can raise uncaught, plus the executor's resume error. -/
inductive Err where
  | validation : String → Err
  | keyError : String → Err
  | invalidResume : Err
  deriving DecidableEq

/-- The degraded empty profile dict. -/
def defaultProfile : Profile := ⟨none, none⟩

/-- `state["extracted_data"].get("amount", 0)`. -/
def extractedAmount : Option Extracted → ℚ
  | none => 0
  | some e => e.amount

/-- `state["extracted_data"].get("vendor", "unknown")`. -/
def extractedVendor : Option Extracted → String
  | none => "unknown"
  | some e => e.vendor

/-- `state["po_data"]["amount"] if state["po_data"] else 0`. -/
def poAmt : Option PoRec → ℚ
  | none => 0
  | some p => p.amount

/-- Rendering used in log strings (numeric formatting is a model choice;
Python prints float reprs). -/
def ratStr (q : ℚ) : String := toString q

/-- Python `str` of an optional string: `None` when absent. -/
def optStr : Option String → String
  | none => "None"
  | some s => s

-- ===== match-score algorithm (src/servers.py) =====

/-- Python's `round(q, 2)` on exact rationals: round half to even at two
decimal places. -/
def round2 (q : ℚ) : ℚ :=
  let scaled := q * 100
  let f : ℤ := ⌊scaled⌋
  let frac : ℚ := scaled - (f : ℚ)
  let r : ℤ :=
    if frac < 1 / 2 then f
    else if 1 / 2 < frac then f + 1
    else if f % 2 = 0 then f else f + 1
  (r : ℚ) / 100

/-- `compute_match_score` endpoint of the COMMON server (src/servers.py). -/
def compute_match_score (invoice_amount po_amount : ℚ) : ℚ :=
  if po_amount = 0 then 0
  else
    let diff := |invoice_amount - po_amount|
    let pct := diff / po_amount * 100
    let score := if pct = 0 then 1 else max 0 (1 - pct / 5)
    round2 score

/-- The score `node_match` ends up requesting: the PO amount is the found
purchase order's amount, or `0` when `po_data` is absent (src/agent.py
`node_match`, line `po_amt = state["po_data"]["amount"] if state["po_data"]
else 0`). -/
def matchScoreWithPo (inv : ℚ) (po : Option PoRec) : ℚ :=
  compute_match_score inv (poAmt po)

/-- Written from the spec's words (§4.5 MATCH): if PO amount is 0 or absent,
score = 0.0; else `pct_diff = |invoice-po| / po * 100`; score = 1.0 if
`pct_diff == 0`, else `max(0, 1.0 - pct_diff/5)`, rounded to 2 decimals. -/
def specMatchScore (inv : ℚ) (po : Option ℚ) : ℚ :=
  match po with
  | none => 0
  | some p =>
    if p = 0 then 0
    else
      let pct := |inv - p| / p * 100
      if pct = 0 then 1 else round2 (max 0 (1 - pct / 5))

-- ===== stage nodes (src/agent.py) =====

/-- STAGE 1 `node_intake`: log, then fail on an empty document reference. -/
def node_intake (st : InvoiceState) : Except Err InvoiceState :=
  let st := { st with logs := st.logs ++ ["📥 STAGE 1: Validating " ++ st.invoice_file] }
  if st.invoice_file = "" then .error (.validation "Missing File") else .ok st

/-- STAGE 2 `node_understand`: pick an OCR tool, extract text (degraded to
`""`), parse it (degraded to the empty dict, i.e. `none`). -/
def node_understand (env : Env) (st : InvoiceState) : InvoiceState :=
  let tool := env.pickTool "ocr"
  let st := { st with logs := st.logs ++ ["🧠 STAGE 2: AI selected \x27" ++ tool ++ "\x27"] }
  let st := { st with ocr_text := (env.ocrExtract st.invoice_file tool).getD "" }
  let parsed := env.parseInvoice st.ocr_text
  let st := { st with extracted_data := parsed }
  { st with logs := st.logs ++ ["   -> Extracted: $" ++
      (match parsed with | none => "None" | some e => ratStr e.amount)] }

/-- STAGE 3 `node_prepare`: enrich the vendor (degraded to the empty profile),
then compute risk flags from the profile. -/
def node_prepare (env : Env) (st : InvoiceState) : InvoiceState :=
  let vendor := extractedVendor st.extracted_data
  let tool := env.pickTool "enrichment"
  let st := { st with logs := st.logs ++ ["🛠️ STAGE 3: AI selected \x27" ++ tool ++ "\x27"] }
  let profile := (env.enrichVendor vendor).getD defaultProfile
  let st := { st with vendor_profile := profile }
  let score := profile.credit_score.getD 0
  let st := { st with logs := st.logs ++
      ["   -> Vendor Score: " ++ toString score ++ " (" ++ optStr profile.risk_level ++ ")"] }
  let flags :=
    (if score < 600 then ["RISK_LOW_CREDIT_SCORE"] else []) ++
    (if profile.risk_level = some "HIGH" then ["RISK_CATEGORY_HIGH"] else [])
  let st := { st with flags := flags }
  if flags ≠ [] then
    { st with logs := st.logs ++ ["   ⚠️ FLAGS DETECTED: " ++ String.intercalate ", " flags] }
  else st

/-- STAGE 4 `node_retrieve`: look up a PO; absence (or a failed call) is
recorded, never an error. -/
def node_retrieve (env : Env) (st : InvoiceState) : InvoiceState :=
  let st := { st with logs := st.logs ++ ["📚 STAGE 4: Fetching POs..."] }
  let vendor := extractedVendor st.extracted_data
  match env.fetchPo vendor with
  | some po =>
    { st with po_data := some po, logs := st.logs ++ ["   -> Found PO: " ++ po.po_number] }
  | none =>
    { st with po_data := none, logs := st.logs ++ ["   -> No PO found."] }

/-- STAGE 5 `node_match`: ask the COMMON server for a score (degraded to 0). -/
def node_match (env : Env) (st : InvoiceState) : InvoiceState :=
  let st := { st with logs := st.logs ++ ["⚖️ STAGE 5: Matching..."] }
  let inv_amt := extractedAmount st.extracted_data
  let po_amt := poAmt st.po_data
  let score := (env.computeScore inv_amt po_amt).getD 0
  { st with match_score := score,
            logs := st.logs ++ ["   -> Match Score: " ++ ratStr score] }

/-- STAGE 6 `node_checkpoint_hitl`: record an AI recommendation
(`analyze_discrepancy` on invoice and PO amounts). -/
def node_checkpoint_hitl (env : Env) (st : InvoiceState) : InvoiceState :=
  let st := { st with logs := st.logs ++ ["⏸️ STAGE 6: Pausing for Human Review."] }
  let inv := extractedAmount st.extracted_data
  let po := poAmt st.po_data
  let a := env.analyze inv po
  { st with ai_analysis := some a,
            logs := st.logs ++ ["🤖 AI Recommendation: " ++ a] }

/-- STAGE 7 `node_hitl_decision`, executed with the resume payload injected
by `interrupt`: REJECT maps to status REJECTED, anything else to APPROVED. -/
def node_hitl_decision (d : DecisionPayload) (st : InvoiceState) : InvoiceState :=
  let st := { st with logs := st.logs ++ ["👨‍💼 STAGE 7 [DECISION]: Waiting for user..."] }
  let st := { st with logs := st.logs ++
      [" -> User Decision: " ++ d.action ++ " (" ++ d.note ++ ")"] }
  if d.action = "REJECT" then { st with status := "REJECTED" }
  else { st with status := "APPROVED" }

/-- STAGE 8 `node_reconcile`: `state["extracted_data"]["amount"]` raises
`KeyError` on the degraded empty dict; otherwise the collaborator call is
degraded to an empty entry list. -/
def node_reconcile (env : Env) (st : InvoiceState) : Except Err InvoiceState :=
  let st := { st with logs := st.logs ++ ["📘 STAGE 8: Reconciling..."] }
  match st.extracted_data with
  | none => .error (.keyError "amount")
  | some e =>
    .ok { st with accounting_entries := (env.buildEntries e.amount e.vendor).getD [] }

/-- STAGE 9 `node_approve`: HUMAN_APPROVED exactly when status is already
APPROVED (set by the DECIDE stage), else AUTO_APPROVED. -/
def node_approve (st : InvoiceState) : InvoiceState :=
  let st := { st with logs := st.logs ++ ["🔄 STAGE 9: Approving..."] }
  let st :=
    if st.status = "APPROVED" then { st with approval_status := "HUMAN_APPROVED" }
    else { st with approval_status := "AUTO_APPROVED" }
  { st with logs := st.logs ++ ["   -> Final Decision: " ++ st.approval_status] }

/-- STAGE 10 `node_posting`: capture the ERP transaction id, degraded to the
sentinel `"ERROR_NO_ID"`. -/
def node_posting (env : Env) (st : InvoiceState) : InvoiceState :=
  let st := { st with logs := st.logs ++ ["🏃 STAGE 10: Posting to ERP..."] }
  { st with erp_txn_id := (env.postErp st.invoice_id).getD "ERROR_NO_ID" }

/-- STAGE 11 `node_notify`: best-effort, the result is ignored. -/
def node_notify (env : Env) (st : InvoiceState) : InvoiceState :=
  { st with logs := st.logs ++ ["✉️ STAGE 11: Notifying..."] }

/-- STAGE 12 `node_complete`: finalize the status. -/
def node_complete (st : InvoiceState) : InvoiceState :=
  let final_msg := if st.status = "REJECTED" then "REJECTED" else "SUCCESS"
  let entry := "✅ STAGE 12 [COMPLETE]: Workflow Finalized (" ++ final_msg ++ ")."
  { st with logs := st.logs ++ [entry], status := final_msg }

-- ===== stage graph and routers (src/agent.py, section 5) =====

/-- The node names of the workflow graph; `DONE` is LangGraph's END. -/
inductive Stage where
  | INTAKE | UNDERSTAND | PREPARE | RETRIEVE | MATCH_TWO_WAY | CHECKPOINT_HITL
  | HITL_DECISION | RECONCILE | APPROVE | POSTING | NOTIFY | COMPLETE | DONE
  deriving DecidableEq

/-- Router 1 `routing_match`: threshold 0.90 on the match score. -/
def routing_match (st : InvoiceState) : Stage :=
  if st.match_score ≥ (0.90 : ℚ) then .RECONCILE else .CHECKPOINT_HITL

/-- Router 2 `routing_hitl`: REJECTED skips straight to COMPLETE. -/
def routing_hitl (st : InvoiceState) : Stage :=
  if st.status = "REJECTED" then .COMPLETE else .RECONCILE

/-- Outcome of running the graph from some stage onward. -/
inductive Outcome where
  | finished : InvoiceState → Outcome
  | suspended : InvoiceState → Outcome
  | failed : Err → Outcome
  deriving DecidableEq

/-- Prepend a visited stage to a run result. -/
def withStage (s : Stage) (r : List Stage × Outcome) : List Stage × Outcome :=
  (s :: r.1, r.2)

/-- Run from COMPLETE: execute the node, then END. -/
def runCOMPLETE (env : Env) (st : InvoiceState) : List Stage × Outcome :=
  ([Stage.COMPLETE], .finished (node_complete st))

/-- Run from NOTIFY onward (unconditional edge to COMPLETE). -/
def runNOTIFY (env : Env) (st : InvoiceState) : List Stage × Outcome :=
  withStage .NOTIFY (runCOMPLETE env (node_notify env st))

/-- Run from POSTING onward (unconditional edge to NOTIFY). -/
def runPOSTING (env : Env) (st : InvoiceState) : List Stage × Outcome :=
  withStage .POSTING (runNOTIFY env (node_posting env st))

/-- Run from APPROVE onward (unconditional edge to POSTING). -/
def runAPPROVE (env : Env) (st : InvoiceState) : List Stage × Outcome :=
  withStage .APPROVE (runPOSTING env (node_approve st))

/-- Run from RECONCILE onward; a KeyError there aborts the run. -/
def runRECONCILE (env : Env) (st : InvoiceState) : List Stage × Outcome :=
  match node_reconcile env st with
  | .error e => ([Stage.RECONCILE], .failed e)
  | .ok st' => withStage .RECONCILE (runAPPROVE env st')

/-- Run from HITL_DECISION onward: with no decision available the run
suspends (LangGraph's `interrupt`; the node is re-executed in full on
resume); otherwise the node runs and `routing_hitl` picks the successor. -/
def runHITL (env : Env) (st : InvoiceState) : List Stage × Outcome :=
  match env.decision with
  | none => ([Stage.HITL_DECISION], .suspended st)
  | some d =>
    let st' := node_hitl_decision d st
    if routing_hitl st' = Stage.COMPLETE then withStage .HITL_DECISION (runCOMPLETE env st')
    else withStage .HITL_DECISION (runRECONCILE env st')

/-- Run from CHECKPOINT_HITL onward (unconditional edge to HITL_DECISION). -/
def runCHECKPOINT (env : Env) (st : InvoiceState) : List Stage × Outcome :=
  withStage .CHECKPOINT_HITL (runHITL env (node_checkpoint_hitl env st))

/-- Run from MATCH_TWO_WAY onward: `routing_match` picks the successor. -/
def runMATCH (env : Env) (st : InvoiceState) : List Stage × Outcome :=
  let st' := node_match env st
  if routing_match st' = Stage.RECONCILE then withStage .MATCH_TWO_WAY (runRECONCILE env st')
  else withStage .MATCH_TWO_WAY (runCHECKPOINT env st')

/-- Run from RETRIEVE onward (unconditional edge to MATCH_TWO_WAY). -/
def runRETRIEVE (env : Env) (st : InvoiceState) : List Stage × Outcome :=
  withStage .RETRIEVE (runMATCH env (node_retrieve env st))

/-- Run from PREPARE onward (unconditional edge to RETRIEVE). -/
def runPREPARE (env : Env) (st : InvoiceState) : List Stage × Outcome :=
  withStage .PREPARE (runRETRIEVE env (node_prepare env st))

/-- Run from UNDERSTAND onward (unconditional edge to PREPARE). -/
def runUNDERSTAND (env : Env) (st : InvoiceState) : List Stage × Outcome :=
  withStage .UNDERSTAND (runPREPARE env (node_understand env st))

/-- Run from INTAKE onward; a ValidationError there aborts the run. -/
def runINTAKE (env : Env) (st : InvoiceState) : List Stage × Outcome :=
  match node_intake st with
  | .error e => ([Stage.INTAKE], .failed e)
  | .ok st' => withStage .INTAKE (runUNDERSTAND env st')

/-- Run the workflow from an arbitrary stage. -/
def runFromStage : Stage → Env → InvoiceState → List Stage × Outcome
  | .INTAKE => runINTAKE
  | .UNDERSTAND => runUNDERSTAND
  | .PREPARE => runPREPARE
  | .RETRIEVE => runRETRIEVE
  | .MATCH_TWO_WAY => runMATCH
  | .CHECKPOINT_HITL => runCHECKPOINT
  | .HITL_DECISION => runHITL
  | .RECONCILE => runRECONCILE
  | .APPROVE => runAPPROVE
  | .POSTING => runPOSTING
  | .NOTIFY => runNOTIFY
  | .COMPLETE => runCOMPLETE
  | .DONE => fun _ st => ([], .finished st)

-- ===== executor / checkpoint store =====

/-- Modelled from the spec: the Executor's run status (§4.4). The executor
and checkpoint machinery live in the LangGraph runtime, not under src/. -/
inductive RunStatus where
  | RUNNING | SUSPENDED | TERMINATED
  deriving DecidableEq

/-- Modelled from the spec: one durable checkpoint row per run (§3) —
state snapshot, next pending stage, suspended flag. -/
structure Checkpoint where
  state : InvoiceState
  pending : Stage
  suspended : Bool

/-- Modelled from the spec: the keyed checkpoint store (§4.5). -/
def Store := String → Option Checkpoint

/-- Durably overwrite one run's row. -/
def Store.put (store : Store) (rid : String) (cp : Checkpoint) : Store :=
  fun r => if r = rid then some cp else store r

/-- The initial state built by the `/start` endpoint (src/api.py). -/
def initialState (filename thread_id : String) : InvoiceState :=
  { invoice_file := filename
    invoice_id := "INV-" ++ thread_id.take 4
    ocr_text := ""
    extracted_data := none
    vendor_profile := defaultProfile
    po_data := none
    match_score := 0
    accounting_entries := []
    approval_status := "PENDING"
    erp_txn_id := ""
    logs := []
    status := "STARTING"
    review_url := ""
    ai_analysis := none
    flags := []}

/-- Modelled from the spec: the Executor's start entry point (§4.4). It runs
the graph from INTAKE; a failure at INTAKE aborts before any checkpoint is
written; a suspension or termination commits the run's checkpoint.
(Intermediate per-step commits are not observable by any claim and are
collapsed into the final one.) -/
def startRun (env : Env) (store : Store) (rid filename : String) :
    Store × Except Err RunStatus :=
  match runINTAKE env (initialState filename rid) with
  | (_, .failed e) => (store, .error e)
  | (_, .suspended st) =>
    (store.put rid ⟨st, .HITL_DECISION, true⟩, .ok .SUSPENDED)
  | (_, .finished st) =>
    (store.put rid ⟨st, .DONE, false⟩, .ok .TERMINATED)

/-- Modelled from the spec: the Executor's resume entry point (§4.4): the
run's checkpoint must exist and have `suspended = true`, else the call is
rejected with `InvalidResumeError`; otherwise the decision payload is
injected and the graph continues from the pending stage. -/
def resumeRun (env : Env) (store : Store) (rid : String) (d : DecisionPayload) :
    Store × Except Err RunStatus :=
  match store rid with
  | none => (store, .error .invalidResume)
  | some cp =>
    if cp.suspended then
      match runFromStage cp.pending { env with decision := some d } cp.state with
      | (_, .failed e) => (store, .error e)
      | (_, .suspended st) =>
        (store.put rid ⟨st, .HITL_DECISION, true⟩, .ok .SUSPENDED)
      | (_, .finished st) =>
        (store.put rid ⟨st, .DONE, false⟩, .ok .TERMINATED)
    else (store, .error .invalidResume)

/-- Result of the `/human-review/decision` endpoint: HTTP 200 with the final
status and logs, or an `HTTPException` (status 500) carrying the error. -/
inductive ApiResult where
  | success : String → List String → ApiResult
  | httpError : Nat → Err → ApiResult
  deriving DecidableEq

/-- `submit_decision` of src/api.py: resume the graph with
`{"action": decision, "note": notes}`; any error is surfaced as an
`HTTPException(500, ...)`, never dropped. -/
def submit_decision (env : Env) (store : Store) (checkpoint_id decision notes : String) :
    Store × ApiResult :=
  match resumeRun env store checkpoint_id ⟨decision, notes⟩ with
  | (store', .ok _) =>
    match store' checkpoint_id with
    | some cp => (store', .success cp.state.status cp.state.logs)
    | none => (store', .success "unknown" [])
  | (store', .error e) => (store', .httpError 500 e)

-- ===== concrete fixtures for witnesses =====

/-- An environment in which every collaborator answers (the demo's happy
path: good_invoice parses to $5000 against PO-1001 at $5000). -/
def envGood : Env :=
  { pickTool := fun _ => "aws_textract"
    ocrExtract := fun _ _ => some "INVOICE #001 VENDOR: ACME CORP TOTAL: $5000.00"
    parseInvoice := fun _ => some ⟨5000, "ACME CORP", "2024-01-01"⟩
    enrichVendor := fun _ => some ⟨some 850, some "LOW"⟩
    fetchPo := fun _ => some ⟨"PO-1001", 5000⟩
    computeScore := fun i p => some (compute_match_score i p)
    buildEntries := fun a v =>
      some [⟨"DEBIT", "EXPENSE_General", a, none⟩, ⟨"CREDIT", "AP_Trade", a, some v⟩]
    postErp := fun _ => some "TXN-1700000000"
    analyze := fun _ _ => "APPROVE"
    decision := none }

/-- An environment in which every collaborator call fails (each
`call_post`/`call_get` returns the empty dict). -/
def envFail : Env :=
  { pickTool := fun _ => "default_tool"
    ocrExtract := fun _ _ => none
    parseInvoice := fun _ => none
    enrichVendor := fun _ => none
    fetchPo := fun _ => none
    computeScore := fun _ _ => none
    buildEntries := fun _ _ => none
    postErp := fun _ => none
    analyze := fun _ _ => ""
    decision := none }

/-- A freshly started run for the demo document. -/
def stW : InvoiceState := initialState "good_invoice.pdf" "abcd1234"

/-- The same run with a populated extraction, as it stands after UNDERSTAND. -/
def stMid : InvoiceState :=
  { stW with extracted_data := some ⟨5000, "ACME CORP", "2024-01-01"⟩ }

/-- A state that reached APPROVE through DECIDE. -/
def stApproved : InvoiceState := { stMid with status := "APPROVED" }

/-- A REJECT decision payload. -/
def dReject : DecisionPayload := ⟨"REJECT", "mismatch too large"⟩

/-- A store holding one run suspended at the DECIDE stage. -/
def storeW : Store :=
  fun r => if r = "t1" then some ⟨stMid, .HITL_DECISION, true⟩ else none

/-- A store holding one already-terminated run. -/
def storeDone : Store :=
  fun r => if r = "t2" then some ⟨stMid, .DONE, false⟩ else none

/-- The empty store. -/
def storeEmpty : Store := fun _ => none

/-- The state at MATCH entry on the happy path: extraction and PO present. -/
def stPo : InvoiceState := { stMid with po_data := some ⟨"PO-1001", 5000⟩ }

/-- The happy-path environment carrying a REJECT resume payload. -/
def envReject : Env := { envGood with decision := some dReject }

-- ===== theorems =====

theorem aux_round2_of_int (n : ℤ) (q : ℚ) (h : q * 100 = (n : ℚ)) :
    round2 q = (n : ℚ) / 100 := by
  unfold round2
  rw [h]
  norm_num

theorem aux_round2_one : round2 1 = 1 := by
  rw [aux_round2_of_int 100 1 (by norm_num)]
  norm_num

theorem aux_cms_5000_5000 : compute_match_score 5000 5000 = 1 := by
  norm_num [compute_match_score]
  rw [aux_round2_of_int 100 1 (by norm_num)]
  norm_num

theorem aux_cms_5250_5000 : compute_match_score 5250 5000 = 0 := by
  norm_num [compute_match_score]
  rw [aux_round2_of_int 0 0 (by norm_num)]
  norm_num

theorem aux_cms_5100_5000 : compute_match_score 5100 5000 = (0.60 : ℚ) := by
  norm_num [compute_match_score]
  rw [aux_round2_of_int 60 (3 / 5) (by norm_num)]
  norm_num

/-- C1: the match-score computation agrees with the spec's algorithm — with
the PO absent or its amount 0 the score is 0.0, otherwise the score is 1.0
at `pct_diff = 0` and `max(0, 1 - pct_diff/5)` rounded to two decimals; the
boundary cases give 5000 vs 5000 ↦ 1.00, 5250 vs 5000 ↦ 0.00 and
5100 vs 5000 ↦ 0.60. -/
theorem C1_match_score (inv : ℚ) (po : Option PoRec) :
    matchScoreWithPo inv po = specMatchScore inv (po.map PoRec.amount) ∧
    matchScoreWithPo inv none = 0 ∧
    compute_match_score inv 0 = 0 ∧
    compute_match_score 5000 5000 = 1 ∧
    compute_match_score 5250 5000 = 0 ∧
    compute_match_score 5100 5000 = (0.60 : ℚ) := by
  refine ⟨?_, by simp [matchScoreWithPo, poAmt, compute_match_score],
    by simp [compute_match_score], aux_cms_5000_5000, aux_cms_5250_5000,
    aux_cms_5100_5000⟩
  cases po with
  | none => simp [matchScoreWithPo, poAmt, compute_match_score, specMatchScore]
  | some p =>
    simp only [matchScoreWithPo, poAmt, Option.map_some, specMatchScore,
      compute_match_score]
    by_cases hz : p.amount = 0
    · simp [hz]
    · simp only [hz, if_false]
      by_cases hp : |inv - p.amount| / p.amount * 100 = 0
      · simp [hp, hz, aux_round2_one]
      · simp [hp, hz]

/-- C6: on resume, the DECIDE stage maps action REJECT to workflow status
REJECTED and any other action to APPROVED, and appends the human note to the
audit log. -/
theorem C6_decide_mapping (d : DecisionPayload) (st : InvoiceState) :
    (d.action = "REJECT" → (node_hitl_decision d st).status = "REJECTED") ∧
    (d.action ≠ "REJECT" → (node_hitl_decision d st).status = "APPROVED") ∧
    (node_hitl_decision d st).logs =
      st.logs ++ ["👨‍💼 STAGE 7 [DECISION]: Waiting for user...",
        " -> User Decision: " ++ d.action ++ " (" ++ d.note ++ ")"] := by
  refine ⟨fun h => by simp [node_hitl_decision, h], fun h => by simp [node_hitl_decision, h], ?_⟩
  by_cases h : d.action = "REJECT" <;> simp [node_hitl_decision, h]

theorem C6_decide_mapping_witness :
    (node_hitl_decision dReject stW).status = "REJECTED" ∧
    (node_hitl_decision ⟨"ACCEPT", "ok"⟩ stW).status = "APPROVED" :=
  ⟨(C6_decide_mapping dReject stW).1 rfl,
    (C6_decide_mapping ⟨"ACCEPT", "ok"⟩ stW).2.1 (by decide)⟩

/-- C7: APPROVE sets the approval outcome to HUMAN_APPROVED exactly when the
workflow status is APPROVED (the run came through DECIDE), and to
AUTO_APPROVED otherwise. -/
theorem C7_approve_outcome (st : InvoiceState) :
    ((node_approve st).approval_status = "HUMAN_APPROVED" ↔ st.status = "APPROVED") ∧
    (st.status ≠ "APPROVED" → (node_approve st).approval_status = "AUTO_APPROVED") := by
  by_cases h : st.status = "APPROVED" <;> simp [node_approve, h]

theorem C7_approve_outcome_witness :
    (node_approve stApproved).approval_status = "HUMAN_APPROVED" ∧
    (node_approve stW).approval_status = "AUTO_APPROVED" :=
  ⟨(C7_approve_outcome stApproved).1.mpr rfl,
    (C7_approve_outcome stW).2 (by decide)⟩

/-- C10: when the enrichment call fails (empty profile) or the profile has no
credit_score key, PREPARE defaults the score to 0, which is below 600, so the
flags always contain RISK_LOW_CREDIT_SCORE and in particular are not empty. -/
theorem C10_degraded_enrichment (env : Env) (st : InvoiceState)
    (h : env.enrichVendor (extractedVendor st.extracted_data) = none ∨
      ∃ p, env.enrichVendor (extractedVendor st.extracted_data) = some p ∧
        p.credit_score = none) :
    ((node_prepare env st).vendor_profile.credit_score.getD 0 = 0 ∧
      ((0 : Int) < 600)) ∧
    "RISK_LOW_CREDIT_SCORE" ∈ (node_prepare env st).flags ∧
    (node_prepare env st).flags ≠ [] := by
  rcases h with h | ⟨p, hp, hc⟩
  · constructor
    · constructor
      · simp [node_prepare, h, defaultProfile]
      · decide
    constructor <;> simp [node_prepare, h, defaultProfile]
  · constructor
    · constructor
      · simp [node_prepare, hp, hc]
      · decide
    constructor <;> simp [node_prepare, hp, hc]

theorem C10_degraded_enrichment_witness :
    "RISK_LOW_CREDIT_SCORE" ∈ (node_prepare envFail stW).flags :=
  (C10_degraded_enrichment envFail stW (Or.inl rfl)).2.1

theorem aux_score_good : (node_match envGood stPo).match_score = 1 := by
  simp [node_match, envGood, stPo, stMid, extractedAmount, poAmt, aux_cms_5000_5000]

/-- C2: whenever the state after MATCH has match_score ≥ 0.90 the router
selects RECONCILE and the run from MATCH onward never visits the
CHECKPOINT_HITL or HITL_DECISION stages; with match_score < 0.90 the router
selects CHECKPOINT_HITL. -/
theorem C2_straight_through (env : Env) (st : InvoiceState) :
    ((node_match env st).match_score ≥ (0.90 : ℚ) →
      routing_match (node_match env st) = Stage.RECONCILE ∧
      Stage.CHECKPOINT_HITL ∉ (runMATCH env st).1 ∧
      Stage.HITL_DECISION ∉ (runMATCH env st).1) ∧
    ((node_match env st).match_score < (0.90 : ℚ) →
      routing_match (node_match env st) = Stage.CHECKPOINT_HITL) ∧
    (∀ st1, node_intake st = .ok st1 →
      (node_match env (node_retrieve env (node_prepare env
        (node_understand env st1)))).match_score ≥ (0.90 : ℚ) →
      Stage.CHECKPOINT_HITL ∉ (runINTAKE env st).1 ∧
      Stage.HITL_DECISION ∉ (runINTAKE env st).1) := by
  have main : ∀ st0 : InvoiceState,
      (node_match env st0).match_score ≥ (0.90 : ℚ) →
      routing_match (node_match env st0) = Stage.RECONCILE ∧
      Stage.CHECKPOINT_HITL ∉ (runMATCH env st0).1 ∧
      Stage.HITL_DECISION ∉ (runMATCH env st0).1 := by
    intro st0 h
    have hr : routing_match (node_match env st0) = Stage.RECONCILE := by
      simp [routing_match, h]
    refine ⟨hr, ?_, ?_⟩ <;>
    · rcases hrec : node_reconcile env (node_match env st0) with e | st'' <;>
        simp [runMATCH, hr, runRECONCILE, hrec, withStage, runAPPROVE,
          runPOSTING, runNOTIFY, runCOMPLETE]
  refine ⟨main st, ?_, ?_⟩
  · intro h
    have : ¬ ((node_match env st).match_score ≥ (0.90 : ℚ)) := not_le.mpr h
    simp [routing_match, this]
  · intro st1 h1 hs
    have hchain : (runINTAKE env st).1 =
        Stage.INTAKE :: Stage.UNDERSTAND :: Stage.PREPARE :: Stage.RETRIEVE ::
          (runMATCH env (node_retrieve env (node_prepare env
            (node_understand env st1)))).1 := by
      simp [runINTAKE, h1, runUNDERSTAND, runPREPARE, runRETRIEVE, withStage]
    have hm := main (node_retrieve env (node_prepare env
      (node_understand env st1))) hs
    rw [hchain]
    simp only [List.mem_cons, not_or]
    exact ⟨⟨by simp, by simp, by simp, by simp, hm.2.1⟩,
      ⟨by simp, by simp, by simp, by simp, hm.2.2⟩⟩

theorem aux_score_good_full :
    (node_match envGood (node_retrieve envGood (node_prepare envGood
      (node_understand envGood
        { stW with logs := stW.logs ++
            ["📥 STAGE 1: Validating " ++ stW.invoice_file] })))).match_score = 1 := by
  simp [node_understand, node_prepare, node_retrieve, node_match, envGood,
    extractedAmount, extractedVendor, poAmt, defaultProfile, aux_cms_5000_5000]

theorem C2_straight_through_witness :
    (routing_match (node_match envGood stPo) = Stage.RECONCILE ∧
      Stage.CHECKPOINT_HITL ∉ (runMATCH envGood stPo).1 ∧
      Stage.HITL_DECISION ∉ (runMATCH envGood stPo).1) ∧
    routing_match (node_match envFail stW) = Stage.CHECKPOINT_HITL ∧
    Stage.CHECKPOINT_HITL ∉ (runINTAKE envGood stW).1 :=
  ⟨(C2_straight_through envGood stPo).1 (by rw [aux_score_good]; norm_num),
    (C2_straight_through envFail stW).2.1
      (by simp [node_match, envFail, stW, initialState]; norm_num),
    ((C2_straight_through envGood stW).2.2 _ rfl
      (by rw [aux_score_good_full]; norm_num)).1⟩

/-- C4: a run resumed at DECIDE with action REJECT routes straight to
COMPLETE, ends with workflow status REJECTED, leaves the accounting entries
and the ERP transaction id untouched (in particular empty if they were
empty), and never executes RECONCILE, APPROVE, POSTING or NOTIFY. -/
theorem C4_reject_frame (env : Env) (st : InvoiceState) (d : DecisionPayload)
    (hdec : env.decision = some d) (hact : d.action = "REJECT") :
    routing_hitl (node_hitl_decision d st) = Stage.COMPLETE ∧
    runHITL env st =
      ([Stage.HITL_DECISION, Stage.COMPLETE],
        .finished (node_complete (node_hitl_decision d st))) ∧
    (node_complete (node_hitl_decision d st)).status = "REJECTED" ∧
    (node_complete (node_hitl_decision d st)).accounting_entries =
      st.accounting_entries ∧
    (node_complete (node_hitl_decision d st)).erp_txn_id = st.erp_txn_id ∧
    Stage.RECONCILE ∉ (runHITL env st).1 ∧
    Stage.APPROVE ∉ (runHITL env st).1 ∧
    Stage.POSTING ∉ (runHITL env st).1 ∧
    Stage.NOTIFY ∉ (runHITL env st).1 := by
  have hst : (node_hitl_decision d st).status = "REJECTED" := by
    simp [node_hitl_decision, hact]
  have hr : routing_hitl (node_hitl_decision d st) = Stage.COMPLETE := by
    simp [routing_hitl, hst]
  have hrun : runHITL env st =
      ([Stage.HITL_DECISION, Stage.COMPLETE],
        .finished (node_complete (node_hitl_decision d st))) := by
    simp [runHITL, hdec, hr, runCOMPLETE, withStage]
  refine ⟨hr, hrun, ?_, ?_, ?_, ?_, ?_, ?_, ?_⟩ <;>
    simp [hrun, node_complete, node_hitl_decision, hact, hst]

theorem C4_reject_frame_witness :
    (node_complete (node_hitl_decision dReject stMid)).status = "REJECTED" ∧
    (node_complete (node_hitl_decision dReject stMid)).accounting_entries = [] ∧
    (node_complete (node_hitl_decision dReject stMid)).erp_txn_id = "" ∧
    Stage.RECONCILE ∉ (runHITL envReject stMid).1 :=
  ⟨(C4_reject_frame envReject stMid dReject rfl rfl).2.2.1,
    (C4_reject_frame envReject stMid dReject rfl rfl).2.2.2.1,
    (C4_reject_frame envReject stMid dReject rfl rfl).2.2.2.2.1,
    (C4_reject_frame envReject stMid dReject rfl rfl).2.2.2.2.2.1⟩

/-- C9: the audit log is append-only — every stage function leaves the
prior log entries unchanged, in order, as a prefix of its output log. -/
theorem C9_audit_append_only (env : Env) (st : InvoiceState) (d : DecisionPayload) :
    (∀ st', node_intake st = .ok st' → st.logs <+: st'.logs) ∧
    st.logs <+: (node_understand env st).logs ∧
    st.logs <+: (node_prepare env st).logs ∧
    st.logs <+: (node_retrieve env st).logs ∧
    st.logs <+: (node_match env st).logs ∧
    st.logs <+: (node_checkpoint_hitl env st).logs ∧
    st.logs <+: (node_hitl_decision d st).logs ∧
    (∀ st', node_reconcile env st = .ok st' → st.logs <+: st'.logs) ∧
    st.logs <+: (node_approve st).logs ∧
    st.logs <+: (node_posting env st).logs ∧
    st.logs <+: (node_notify env st).logs ∧
    st.logs <+: (node_complete st).logs := by
  refine ⟨?_, ?_, ?_, ?_, ?_, ?_, ?_, ?_, ?_, ?_, ?_, ?_⟩
  · intro st' h
    by_cases hf : st.invoice_file = ""
    · simp [node_intake, hf] at h
    · simp [node_intake, hf] at h
      simp [← h]
  · unfold node_understand
    simp
  · unfold node_prepare
    dsimp only
    repeat' split
    all_goals simp
  · unfold node_retrieve
    dsimp only
    rcases hx : env.fetchPo (extractedVendor st.extracted_data) with _ | po <;>
      simp [hx]
  · unfold node_match
    simp
  · unfold node_checkpoint_hitl
    simp
  · unfold node_hitl_decision
    split <;> simp
  · intro st' h
    rcases hx : st.extracted_data with _ | e
    · simp [node_reconcile, hx] at h
    · simp [node_reconcile, hx] at h
      simp [← h]
  · unfold node_approve
    dsimp only
    split <;> simp
  · unfold node_posting
    simp
  · unfold node_notify
    simp
  · unfold node_complete
    simp

theorem C9_audit_append_only_witness :
    stW.logs <+: (node_understand envGood stW).logs ∧
    stW.logs <+: (node_complete stW).logs :=
  ⟨(C9_audit_append_only envGood stW dReject).2.1,
    (C9_audit_append_only envGood stW dReject).2.2.2.2.2.2.2.2.2.2.2⟩

/-- C3 counterexample: at the POSTING stage with a failing settlement
collaborator, the state records the sentinel id but the audit log gains only
the fixed stage banner — exactly the same single entry as when the call
succeeds — so no audit-log entry naming the degraded field is appended,
contradicting the claim. -/
theorem C3_degradation_counterexample :
    (node_posting envFail stW).erp_txn_id = "ERROR_NO_ID" ∧
    (node_posting envFail stW).logs = stW.logs ++ ["🏃 STAGE 10: Posting to ERP..."] ∧
    (node_posting envGood stW).logs = (node_posting envFail stW).logs := by
  refine ⟨rfl, rfl, rfl⟩

/-- C3 amended: every stage other than INTAKE catches the failure of its own
external collaborator call, substitutes the defined default (empty text,
empty extraction, empty profile, not-found PO, zero score, empty ledger,
sentinel transaction id) and completes normally — but it does not append an
audit-log entry naming the degraded field: for the stages below the log
entries added on failure are exactly the fixed stage banners, identical to
the success case. -/
theorem C3_degradation_amended (env : Env) (st : InvoiceState) :
    (env.ocrExtract st.invoice_file (env.pickTool "ocr") = none →
      (node_understand env st).ocr_text = "") ∧
    (env.parseInvoice ((env.ocrExtract st.invoice_file (env.pickTool "ocr")).getD "") = none →
      (node_understand env st).extracted_data = none ∧
      (node_understand env st).logs = st.logs ++
        ["🧠 STAGE 2: AI selected \x27" ++ env.pickTool "ocr" ++ "\x27",
          "   -> Extracted: $None"]) ∧
    (env.enrichVendor (extractedVendor st.extracted_data) = none →
      (node_prepare env st).vendor_profile = defaultProfile) ∧
    (env.fetchPo (extractedVendor st.extracted_data) = none →
      (node_retrieve env st).po_data = none ∧
      (node_retrieve env st).logs = st.logs ++
        ["📚 STAGE 4: Fetching POs...", "   -> No PO found."]) ∧
    (env.computeScore (extractedAmount st.extracted_data) (poAmt st.po_data) = none →
      (node_match env st).match_score = 0) ∧
    (∀ e, st.extracted_data = some e → env.buildEntries e.amount e.vendor = none →
      node_reconcile env st = .ok
        { st with accounting_entries := [],
                  logs := st.logs ++ ["📘 STAGE 8: Reconciling..."] }) ∧
    (env.postErp st.invoice_id = none →
      (node_posting env st).erp_txn_id = "ERROR_NO_ID" ∧
      (node_posting env st).logs = st.logs ++ ["🏃 STAGE 10: Posting to ERP..."]) := by
  refine ⟨?_, ?_, ?_, ?_, ?_, ?_, ?_⟩
  · intro h
    simp [node_understand, h]
  · intro h
    constructor
    · simp [node_understand, h]
    · simp [node_understand, h]
  · intro h
    simp [node_prepare, h]
    split <;> simp
  · intro h
    exact ⟨by simp [node_retrieve, h], by simp [node_retrieve, h]⟩
  · intro h
    simp [node_match, h]
  · intro e he h
    simp [node_reconcile, he, h]
  · intro h
    exact ⟨by simp [node_posting, h], by simp [node_posting, h]⟩

theorem C3_degradation_amended_witness :
    (node_understand envFail stW).extracted_data = none ∧
    (node_prepare envFail stW).vendor_profile = defaultProfile ∧
    (node_retrieve envFail stW).po_data = none ∧
    (node_match envFail stW).match_score = 0 ∧
    node_reconcile envFail stMid = .ok
      { stMid with accounting_entries := [],
                   logs := stMid.logs ++ ["📘 STAGE 8: Reconciling..."] } ∧
    (node_posting envFail stW).erp_txn_id = "ERROR_NO_ID" :=
  ⟨((C3_degradation_amended envFail stW).2.1 rfl).1,
    (C3_degradation_amended envFail stW).2.2.1 rfl,
    ((C3_degradation_amended envFail stW).2.2.2.1 rfl).1,
    (C3_degradation_amended envFail stW).2.2.2.2.1 rfl,
    (C3_degradation_amended envFail stMid).2.2.2.2.2.1 _ rfl rfl,
    ((C3_degradation_amended envFail stW).2.2.2.2.2.2 rfl).1⟩

/-- C8: INTAKE raises its ValidationError exactly when the document reference
is empty; no other stage can raise a ValidationError (RECONCILE's only
uncaught error is a KeyError); and a run started on an empty document
reference aborts with the ValidationError before any checkpoint is written. -/
theorem C8_intake_validation :
    (∀ st, st.invoice_file = "" →
      node_intake st = .error (.validation "Missing File")) ∧
    (∀ st, st.invoice_file ≠ "" →
      node_intake st = .ok
        { st with logs := st.logs ++ ["📥 STAGE 1: Validating " ++ st.invoice_file] }) ∧
    (∀ env st m, node_reconcile env st ≠ .error (.validation m)) ∧
    (∀ env store rid,
      (startRun env store rid "").2 = .error (.validation "Missing File") ∧
      (startRun env store rid "").1 = store) := by
  refine ⟨?_, ?_, ?_, ?_⟩
  · intro st h
    simp [node_intake, h]
  · intro st h
    simp [node_intake, h]
  · intro env st m
    rcases hx : st.extracted_data with _ | e <;> simp [node_reconcile, hx]
  · intro env store rid
    constructor <;>
      simp [startRun, runINTAKE, node_intake, initialState]

theorem C8_intake_validation_witness :
    (startRun envGood storeEmpty "t0" "").2 = .error (.validation "Missing File") ∧
    node_intake stW = .ok
      { stW with logs := stW.logs ++ ["📥 STAGE 1: Validating " ++ stW.invoice_file] } :=
  ⟨(C8_intake_validation.2.2.2 envGood storeEmpty "t0").1,
    C8_intake_validation.2.1 stW (by decide)⟩

theorem aux_runRECONCILE_no_suspend (env : Env) (st : InvoiceState)
    (s : InvoiceState) : (runRECONCILE env st).2 ≠ Outcome.suspended s := by
  rcases h : node_reconcile env st with e | st'' <;>
    simp [runRECONCILE, h, withStage, runAPPROVE, runPOSTING, runNOTIFY,
      runCOMPLETE]

theorem aux_runHITL_no_suspend (env : Env) (d : DecisionPayload)
    (st : InvoiceState) (hd : env.decision = some d) (s : InvoiceState) :
    (runHITL env st).2 ≠ Outcome.suspended s := by
  by_cases hr : routing_hitl (node_hitl_decision d st) = Stage.COMPLETE
  · simp [runHITL, hd, hr, withStage, runCOMPLETE]
  · simp only [runHITL, hd, hr, if_false, withStage]
    exact aux_runRECONCILE_no_suspend env (node_hitl_decision d st) s

/-- C5: resume on a run that is not currently suspended — unknown run id, a
checkpoint whose suspended flag is cleared (already terminated), or a run
already resumed once — fails with InvalidResumeError surfaced to the caller
as an HTTP 500 error, and the store (hence the run's final state) is exactly
what the first decision left behind. -/
theorem C5_invalid_resume :
    (∀ env store rid d n, store rid = none →
      submit_decision env store rid d n =
        (store, .httpError 500 .invalidResume)) ∧
    (∀ env store rid cp d n, store rid = some cp → cp.suspended = false →
      submit_decision env store rid d n =
        (store, .httpError 500 .invalidResume)) ∧
    (∀ env store rid cp d1 n1 d2 n2 s l,
      store rid = some cp → cp.suspended = true →
      cp.pending = Stage.HITL_DECISION →
      (submit_decision env store rid d1 n1).2 = .success s l →
      submit_decision env (submit_decision env store rid d1 n1).1 rid d2 n2 =
        ((submit_decision env store rid d1 n1).1,
          .httpError 500 .invalidResume)) := by
  refine ⟨?_, ?_, ?_⟩
  · intro env store rid d n h
    simp [submit_decision, resumeRun, h]
  · intro env store rid cp d n h1 h2
    simp [submit_decision, resumeRun, h1, h2]
  · intro env store rid cp d1 n1 d2 n2 s l h1 h2 h3 hsucc
    have hrfs : runFromStage cp.pending
        { env with decision := some ⟨d1, n1⟩ } cp.state =
        runHITL { env with decision := some ⟨d1, n1⟩ } cp.state := by
      rw [h3]
      rfl
    rcases hout : runHITL { env with decision := some ⟨d1, n1⟩ } cp.state
      with ⟨vis, out⟩
    cases out with
    | suspended sst =>
      exact absurd (congrArg Prod.snd hout)
        (by simpa using aux_runHITL_no_suspend _ ⟨d1, n1⟩ cp.state rfl sst)
    | failed e =>
      have hbad : (submit_decision env store rid d1 n1).2 = .httpError 500 e := by
        simp [submit_decision, resumeRun, h1, h2, hrfs, hout]
      rw [hbad] at hsucc
      exact absurd hsucc (by simp)
    | finished stf =>
      have hfirst : submit_decision env store rid d1 n1 =
          (Store.put store rid ⟨stf, .DONE, false⟩,
            .success stf.status stf.logs) := by
        simp [submit_decision, resumeRun, h1, h2, hrfs, hout, Store.put]
      rw [hfirst]
      simp [submit_decision, resumeRun, Store.put]

theorem C5_invalid_resume_witness :
    submit_decision envGood storeEmpty "ghost" "ACCEPT" "" =
      (storeEmpty, .httpError 500 .invalidResume) ∧
    submit_decision envGood storeDone "t2" "ACCEPT" "" =
      (storeDone, .httpError 500 .invalidResume) ∧
    submit_decision envGood (submit_decision envGood storeW "t1" "REJECT" "dup").1
        "t1" "ACCEPT" "second" =
      ((submit_decision envGood storeW "t1" "REJECT" "dup").1,
        .httpError 500 .invalidResume) :=
  ⟨C5_invalid_resume.1 envGood storeEmpty "ghost" "ACCEPT" "" rfl,
    C5_invalid_resume.2.1 envGood storeDone "t2" ⟨stMid, .DONE, false⟩
      "ACCEPT" "" rfl rfl,
    C5_invalid_resume.2.2 envGood storeW "t1" ⟨stMid, .HITL_DECISION, true⟩
      "REJECT" "dup" "ACCEPT" "second" "REJECTED"
      ["👨‍💼 STAGE 7 [DECISION]: Waiting for user...",
        " -> User Decision: REJECT (dup)",
        "✅ STAGE 12 [COMPLETE]: Workflow Finalized (REJECTED)."]
      rfl rfl rfl
      (by simp [submit_decision, resumeRun, storeW, runFromStage, runHITL,
        envGood, node_hitl_decision, routing_hitl, runCOMPLETE, withStage,
        node_complete, Store.put, stMid, stW, initialState])⟩

end InvoiceAgent
